import Mathlib

/-!
Verification of the local-media-stream repository (src/app.py, src/stream.py).

The Python sources are shallowly embedded: pure helpers become Lean
functions over character lists (mirroring CPython's posixpath semantics),
stateful code becomes explicit state passing over a process-state record,
and code that can raise returns Except.  External effects (the filesystem,
the ffmpeg subprocess, network binds) are threaded as explicit oracle
parameters, and the sequence of externally visible actions of one job is
recorded as an event trace.
-/

namespace LMS

/-! ## Character-list string utilities (CPython posixpath semantics) -/

/-- Split a character list at every occurrence of the separator, like
Python's str.split: the empty list yields one empty component. -/
def splitChar (c : Char) : List Char → List (List Char)
  | [] => [[]]
  | a :: as =>
    match splitChar c as with
    | [] => [[]]
    | h :: t => if a = c then [] :: h :: t else (a :: h) :: t

/-- Join components with a separator, like sep.join in Python. -/
def joinComps (sep : Char) : List (List Char) → List Char
  | [] => []
  | [x] => x
  | x :: xs => x ++ sep :: joinComps sep xs

/-- One step of posixpath.normpath's component scan: skip empty and dot
components; append a component unless it is a collapsible dotdot. -/
def normStep (isAbs : Bool) (acc : List (List Char)) (comp : List Char) :
    List (List Char) :=
  if comp = [] ∨ comp = ['.'] then acc
  else if comp ≠ ['.', '.'] ∨ (¬ isAbs ∧ acc = []) ∨ acc.getLast? = some ['.', '.'] then
    acc ++ [comp]
  else if acc ≠ [] then acc.dropLast
  else acc

/-- posixpath.normpath falls back to "." when the normalized path came
out empty. -/
def nonEmptyOrDot (r : List Char) : List Char := if r = [] then ['.'] else r

/-- posixpath.normpath over a character list (CPython's algorithm:
collapse separators and dot segments lexically; a leading double slash is
kept, three or more collapse to one). -/
def pyNormpathL (l : List Char) : List Char :=
  if l = [] then ['.']
  else
    let isAbs := l.head? = some '/'
    let slashes : Nat :=
      if isAbs then
        match l with
        | '/' :: '/' :: '/' :: _ => 1
        | '/' :: '/' :: _ => 2
        | _ => 1
      else 0
    let comps := splitChar '/' l
    let nc := comps.foldl (normStep isAbs) []
    let body := joinComps '/' nc
    nonEmptyOrDot (List.replicate slashes '/' ++ body)

/-- os.path.normpath on strings. -/
def pyNormpath (s : String) : String := (pyNormpathL s.toList).asString

/-- os.path.join for two arguments (posixpath: an absolute second argument
discards the first). -/
def pyJoinL (a b : List Char) : List Char :=
  if b.head? = some '/' then b
  else if a = [] ∨ a.getLast? = some '/' then a ++ b
  else a ++ '/' :: b

/-- os.path.join on strings. -/
def pyJoin (a b : String) : String := (pyJoinL a.toList b.toList).asString

/-- os.path.abspath: join onto the current working directory (a no-op for
absolute inputs) and normalize.  abspath does not follow symlinks. -/
def pyAbspath (cwd p : String) : String := pyNormpath (pyJoin cwd p)

/-- Python str.startswith as a character-list prefix test. -/
def pyStartsWith (pre s : String) : Bool := pre.toList.isPrefixOf s.toList

/-- os.path.dirname (posixpath: text before the final slash, with trailing
slashes stripped unless the head is all slashes). -/
def pyDirnameL (l : List Char) : List Char :=
  let rev := l.reverse
  let afterName := rev.dropWhile (fun c => c ≠ '/')
  match afterName with
  | [] => []
  | _ :: _ =>
    let head := afterName.reverse
    if head.all (fun c => c = '/') then head
    else (head.reverse.dropWhile (fun c => c = '/')).reverse

/-- os.path.dirname on strings. -/
def pyDirname (s : String) : String := (pyDirnameL s.toList).asString

/-- Python truthiness of an optional string: None and the empty string are
falsy. -/
def pyTruthy (o : Option String) : Bool :=
  match o with
  | none => false
  | some s => s != ""

/-! ## Path Guard (src/app.py, secure_path, lines 21-26)

    def secure_path(rel_path: str) -> str:
        abs_path = os.path.abspath(os.path.join(MOVIES_DIR, rel_path))
        if not abs_path.startswith(os.path.abspath(MOVIES_DIR)):
            raise ValueError("Invalid path")
        return abs_path

The root directory (MOVIES_DIR) and the process working directory are
explicit parameters here. -/

/-- secure_path from src/app.py: resolve a caller-supplied relative path
against the root and reject it when the resolved absolute path does not
start (as a raw string) with the root's absolute path. -/
def secure_path (cwd root rel : String) : Except String String :=
  let absPath := pyAbspath cwd (pyJoin root rel)
  if pyStartsWith (pyAbspath cwd root) absPath then .ok absPath
  else .error "Invalid path"

/-- The specification's notion of the resolved path lying inside the root:
the path is the (canonical) root itself or sits strictly below it, with a
path-separator boundary.  This follows the spec's words ("the canonicalized
result is a descendant of root"), to be compared against secure_path. -/
def isDescendant (root p : String) : Bool :=
  (p == root) || pyStartsWith (root ++ "/") p

/-! ## Decimal rendering of the subtitle delay

src/stream.py passes str(subtitle_delay) to ffmpeg.  The delay is a Python
float; here it is embedded as a rational whose decimal expansion
terminates, and rendered the way Python's str renders such floats:
optional sign, integer part, a dot, and the fractional digits (at least
one digit, so an integral value renders with a trailing ".0"). -/

/-- The decimal digit character for n < 10. -/
def digitChar (n : Nat) : Char := Char.ofNat (48 + n)

/-- Fractional digits of n/d by long division, stopping at remainder 0
(fuel-bounded; 17 digits cover every shortest float repr). -/
def fracDigits : Nat → Nat → Nat → List Char
  | 0, _, _ => []
  | fuel + 1, n, d =>
    if n = 0 then []
    else
      let n10 := n * 10
      digitChar (n10 / d) :: fracDigits fuel (n10 % d) d

/-- Python str() of the delay value (exact for every delay whose decimal
expansion terminates within 17 digits, which includes all float shortest
representations such as 2.5, -1.0, 1.5). -/
def pyFloatStr (q : Rat) : String :=
  let sign := if q < 0 then "-" else ""
  let n := q.num.natAbs
  let ip := n / q.den
  let fr := n % q.den
  let ds := fracDigits 17 fr q.den
  sign ++ Nat.repr ip ++ "." ++ (if ds = [] then "0" else ds.asString)

/-! ## Transcode Orchestrator: the ffmpeg command (src/stream.py 153-192) -/

/-- The argument list built by run_ffmpeg in src/stream.py, line for line:
inputs first (with -itsoffset before the subtitle input only when the
delay is nonzero), then stream mapping, codec options, and HLS output
options. -/
def build_ffmpeg_command (movie : String) (subtitle : Option String)
    (streamFolder : String) (delay : Rat) : List String :=
  let cmd := ["ffmpeg"]
  let cmd := cmd ++ ["-i", movie]
  let cmd := cmd ++
    (if pyTruthy subtitle then
      (if delay ≠ 0 then ["-itsoffset", pyFloatStr delay] else []) ++
        ["-i", subtitle.getD ""]
    else [])
  let cmd := cmd ++ ["-map", "0:v", "-map", "0:a"]
  let cmd := cmd ++ (if pyTruthy subtitle then ["-map", "1:0"] else [])
  let cmd := cmd ++ ["-c:v", "copy", "-c:a", "copy"]
  let cmd := cmd ++ (if pyTruthy subtitle then ["-c:s", "webvtt"] else [])
  cmd ++ ["-start_number", "0", "-hls_time", "10", "-hls_list_size", "0",
    "-hls_segment_filename", pyJoin streamFolder "segment_%03d.ts",
    pyJoin streamFolder "output.m3u8"]

/-! ## Master playlist (src/stream.py 199-208) -/

/-- The exact text run_ffmpeg writes to master.m3u8 after a successful
transcode: the subtitle rendition and the SUBTITLES attribute appear only
when a subtitle path was supplied (Python truthiness). -/
def masterPlaylistContent (subtitle : Option String) : String :=
  "#EXTM3U\n\n" ++
  (if pyTruthy subtitle then
    "#EXT-X-MEDIA:TYPE=SUBTITLES,GROUP-ID=\"subs\",NAME=\"English\",DEFAULT=NO,AUTOSELECT=YES,LANGUAGE=\"en\",URI=\"output_vtt.m3u8\"\n\n"
      ++ "#EXT-X-STREAM-INF:BANDWIDTH=800000,RESOLUTION=1920x1080,SUBTITLES=\"subs\"\n"
  else
    "#EXT-X-STREAM-INF:BANDWIDTH=800000,RESOLUTION=1920x1080\n")
  ++ "output.m3u8\n"

/-- The lines of a text file, split at every newline. -/
def fileLines (s : String) : List String :=
  (splitChar '\n' s.toList).map List.asString

/-- Substring test over character lists. -/
def listContains (needle : List Char) : List Char → Bool
  | [] => needle.isPrefixOf ([] : List Char)
  | c :: cs => needle.isPrefixOf (c :: cs) || listContains needle cs

/-- Python's (needle in s) substring test. -/
def containsStr (needle s : String) : Bool := listContains needle.toList s.toList

/-! ## Process state, events and the job lifecycle

The state record tracks the externally observable resources of the single
job the design supports: the process working directory, the job's output
directory and the two playlists inside it, the TCP server on the serving
port, the module-level STREAM_FOLDER_PATH global of src/stream.py, and
whether the atexit hook has been registered.  An event trace records the
order of the externally visible actions of a job. -/

/-- An externally visible action of the pipeline, in the order it is
issued. -/
inductive Ev where
  | resolvePath (p : String)
  | validate
  | materialize (p : String)
  | mkdirOutput
  | transcodeRun (cmd : List String)
  | writeOutputPlaylist
  | writeMaster
  | chdir (d : String)
  | bindPort (port : Nat)
  deriving DecidableEq

/-- The pipeline stage an event belongs to (used to state ordering). -/
def stage : Ev → Nat
  | .resolvePath _ => 0
  | .validate => 1
  | .materialize _ => 2
  | .mkdirOutput => 3
  | .transcodeRun _ => 4
  | .writeOutputPlaylist => 5
  | .writeMaster => 6
  | .chdir _ => 7
  | .bindPort _ => 8

def isResolve : Ev → Bool
  | .resolvePath _ => true
  | _ => false

def isMaterialize : Ev → Bool
  | .materialize _ => true
  | _ => false

def isTranscode : Ev → Bool
  | .transcodeRun _ => true
  | _ => false

def isWriteOutput : Ev → Bool
  | .writeOutputPlaylist => true
  | _ => false

def isWriteMaster : Ev → Bool
  | .writeMaster => true
  | _ => false

def isBindPort : Ev → Bool
  | .bindPort _ => true
  | _ => false

/-- Observable process state: filesystem artifacts of the job, the
process-wide working directory, the serving socket, and the module
globals of src/stream.py. -/
structure St where
  cwd : String
  outputDirExists : Bool
  outputM3u8 : Bool
  masterM3u8 : Bool
  serverBound : Bool
  streamFolderGlobal : Option String
  atexitRegistered : Bool
  deriving DecidableEq

/-- The Flask session entries used by the app (src/app.py): the selected
video, subtitle and delay. -/
structure Session where
  video : Option String
  subtitle : Option String
  delay : Option Rat
  deriving DecidableEq

/-- The outcome of an HTTP request handler: a rendered 200 page, an
explicit error response, a redirect, or an uncaught exception (which
Flask turns into a 500). -/
inductive HttpResult where
  | ok (body : String)
  | err (code : Nat) (msg : String)
  | redirect
  | exc (msg : String)
  deriving DecidableEq

/-! ### serve_output (src/stream.py 99-123)

os.chdir switches the process-wide working directory to the output
folder, then a TCPServer is bound on ("", port) and serve_forever runs
until the process is interrupted; the serving loop is modelled as the
state in which the socket stays bound.  The working directory is never
restored. -/

/-- serve_output from src/stream.py: chdir into the output folder, then
bind and serve. -/
def serve_output (dir : String) (port : Nat) (s : St) : St × List Ev :=
  let s := { s with cwd := dir }
  let s := { s with serverBound := true }
  (s, [.chdir dir, .bindPort port])

/-! ### run_ffmpeg (src/stream.py 125-214)

The ffmpeg subprocess's exit status is an oracle parameter; on status 0
ffmpeg has produced output.m3u8 and the segments in the output folder.
subprocess.run(check=True) raises CalledProcessError on a nonzero status,
and the except-branch calls sys.exit(returncode): embedded as an
Except.error carrying the exit code, skipping the master-playlist write
and serve_output. -/

/-- run_ffmpeg from src/stream.py: record the stream folder in the module
global, create the output folder, run ffmpeg, and on success write
master.m3u8 and serve the output. -/
def run_ffmpeg (movie : String) (subtitle : Option String)
    (streamFolder : String) (port : Nat) (delay : Rat)
    (ffmpegExit : Int) (s : St) : Except Int Unit × St × List Ev :=
  let s := { s with streamFolderGlobal := some streamFolder }
  let s := { s with outputDirExists := true }
  let cmd := build_ffmpeg_command movie subtitle streamFolder delay
  if ffmpegExit ≠ 0 then
    (.error ffmpegExit, s, [.mkdirOutput, .transcodeRun cmd])
  else
    let s := { s with outputM3u8 := true }
    let s := { s with masterM3u8 := true }
    let r := serve_output streamFolder port s
    (.ok (), r.1, [.mkdirOutput, .transcodeRun cmd, .writeOutputPlaylist,
      .writeMaster] ++ r.2)

/-! ### validate_paths (src/stream.py 80-97)

os.path.isfile outcomes are oracle parameters; sys.exit(1) on a missing
file is an Except.error carrying 1. -/

/-- validate_paths from src/stream.py: require the movie (and, when a
subtitle was supplied, the subtitle) to be an existing regular file. -/
def validate_paths (movieIsFile : Bool) (subtitle : Option String)
    (subIsFile : Bool) : Except Int Unit :=
  if ¬ movieIsFile then .error 1
  else if pyTruthy subtitle ∧ ¬ subIsFile then .error 1
  else .ok ()

/-! ### ensure_local (src/app.py 28-34)

The open-and-read-one-byte is an external effect whose outcome (success
or an arbitrary exception) is an oracle parameter; the except-branch
catches every exception and prints a warning.  The returned value is the
list of warning lines printed; an Except.error would mean an exception
escaped to the caller. -/

/-- ensure_local from src/app.py: touch the file, swallowing any error
into a printed warning. -/
def ensure_local (path : String) (readResult : Except String Unit) :
    Except String (List String) :=
  match readResult with
  | .ok _ => .ok []
  | .error exc => .ok ["Warning: could not access " ++ path ++ ": " ++ exc]

/-! ### start_stream (src/app.py 168-201)

The handler body up to the point where the worker thread is spawned is
synchronous; the spawned daemon thread runs run_ffmpeg.  The form delay
arrives already parsed as a rational.  The oracle parameters stand for
os.path.isfile answers and the ensure_local read outcomes. -/

/-- The parameters the spawned worker thread closes over. -/
structure JobParams where
  movie : String
  subtitle : Option String
  streamFolder : String
  delay : Rat
  deriving DecidableEq

/-- The result of the start handler: the HTTP response, the updated
session, the process state, the trace of actions taken so far, and the
background job spawned (none when no thread was started). -/
structure StartOutcome where
  response : HttpResult
  sess : Session
  state : St
  trace : List Ev
  job : Option JobParams
  deriving DecidableEq

/-- The synchronous part of start_stream from src/app.py: store the
delay, fail fast when no video is selected, resolve both paths through
secure_path (a ValueError escapes to Flask), validate them, materialize
them, and spawn the worker. -/
def start_stream_sync (cwd root : String) (sess : Session) (formDelay : Rat)
    (movieIsFile subIsFile : Bool) (readMovie readSub : Except String Unit)
    (s : St) : StartOutcome :=
  let sess1 : Session := { sess with delay := some formDelay }
  if pyTruthy sess1.video = false then
    ⟨.err 400 "No video selected", sess1, s, [], none⟩
  else
    match secure_path cwd root (sess1.video.getD "") with
    | .error e => ⟨.exc e, sess1, s, [.resolvePath (sess1.video.getD "")], none⟩
    | .ok moviePath =>
      let subRes : Except String (Option String) :=
        if pyTruthy sess1.subtitle then
          match secure_path cwd root (sess1.subtitle.getD "") with
          | .error e => .error e
          | .ok p => .ok (some p)
        else .ok none
      let evs0 := [Ev.resolvePath (sess1.video.getD "")] ++
        (if pyTruthy sess1.subtitle then [Ev.resolvePath (sess1.subtitle.getD "")]
         else [])
      match subRes with
      | .error e => ⟨.exc e, sess1, s, evs0, none⟩
      | .ok subtitlePath =>
        match validate_paths movieIsFile subtitlePath subIsFile with
        | .error _ => ⟨.exc "SystemExit", sess1, s, evs0 ++ [Ev.validate], none⟩
        | .ok _ =>
          let evs1 := evs0 ++ [Ev.validate]
          let _logMovie := ensure_local moviePath readMovie
          let evs2 := evs1 ++ [Ev.materialize moviePath]
          let evs3 := evs2 ++
            (if pyTruthy subtitlePath then
              let _logSub := ensure_local (subtitlePath.getD "") readSub
              [Ev.materialize (subtitlePath.getD "")]
             else [])
          let streamFolder := pyJoin (pyDirname moviePath) "stream"
          ⟨.ok "Streaming started", sess1, s, evs3,
            some ⟨moviePath, subtitlePath, streamFolder, formDelay⟩⟩

/-- Run the spawned worker to completion, if one was spawned: the daemon
thread executes run_ffmpeg over the process state, its return value (or
SystemExit) is discarded, and the HTTP response is unchanged. -/
def runJobOpt (ffmpegExit : Int) (o : StartOutcome) : StartOutcome :=
  match o.job with
  | none => o
  | some j =>
    let r := run_ffmpeg j.movie j.subtitle j.streamFolder 9000 j.delay
      ffmpegExit o.state
    { o with state := r.2.1, trace := o.trace ++ r.2.2 }

/-- start_stream followed by the complete execution of the background
worker it spawned (the job is the only writer of the process state, so
running it after the synchronous part is faithful for per-job claims). -/
def start_stream_full (cwd root : String) (sess : Session) (formDelay : Rat)
    (movieIsFile subIsFile : Bool) (readMovie readSub : Except String Unit)
    (ffmpegExit : Int) (s : St) : StartOutcome :=
  runJobOpt ffmpegExit
    (start_stream_sync cwd root sess formDelay movieIsFile subIsFile
      readMovie readSub s)

/-! ### stop_stream (src/app.py 203-218)

The handler pops the session entries and, when a video was selected,
recomputes the stream folder and recursively deletes it with
shutil.rmtree(..., ignore_errors=True) inside a try/except that passes.
rmtreeFails stands for the deletion failing internally (in which case
ignore_errors suppresses the error and the folder survives).  Nothing in
the handler touches the HTTP server socket or the worker thread. -/

/-- stop_stream from src/app.py. -/
def stop_stream (cwd root : String) (sess : Session) (rmtreeFails : Bool)
    (s : St) : HttpResult × Session × St :=
  let videoRel := sess.video
  let sessOut : Session := ⟨none, none, none⟩
  let sOut :=
    if pyTruthy videoRel then
      match secure_path cwd root (videoRel.getD "") with
      | .error _ => s
      | .ok moviePath =>
        let _streamFolder := pyJoin (pyDirname moviePath) "stream"
        if rmtreeFails then s
        else { s with outputDirExists := false, outputM3u8 := false, masterM3u8 := false }
    else s
  (.redirect, sessOut, sOut)

/-! ### atexit cleanup (src/stream.py 23-42)

cleanup_stream_folder deletes STREAM_FOLDER_PATH if set and existing,
printing (and otherwise ignoring) any deletion error; line 42 registers
it with atexit at module import.  atexitRunsOn models CPython's documented
atexit semantics: registered functions run on normal interpreter exit,
on sys.exit and after an unhandled exception, but not when the process is
killed by an unhandled signal, by os._exit, or by a hard crash. -/

/-- How the whole process terminates. -/
inductive TermCause where
  | normalExit
  | sysExit
  | unhandledException
  | signalKill
  | hardCrash
  deriving DecidableEq

/-- Whether CPython runs atexit handlers for a given termination cause. -/
def atexitRunsOn : TermCause → Bool
  | .normalExit => true
  | .sysExit => true
  | .unhandledException => true
  | .signalKill => false
  | .hardCrash => false

/-- cleanup_stream_folder from src/stream.py: delete the recorded stream
folder if it exists, swallowing deletion errors. -/
def cleanup_stream_folder (rmtreeFails : Bool) (s : St) : St :=
  match s.streamFolderGlobal with
  | none => s
  | some _ =>
    if s.outputDirExists then
      if rmtreeFails then s
      else { s with outputDirExists := false, outputM3u8 := false, masterM3u8 := false }
    else s

/-- Module import of src/stream.py registers cleanup_stream_folder with
atexit (line 42). -/
def moduleInit (s : St) : St := { s with atexitRegistered := true }

/-- Process termination: the atexit hook runs exactly when it was
registered and the termination cause is one CPython runs handlers for. -/
def processTerminate (cause : TermCause) (rmtreeFails : Bool) (s : St) : St :=
  if s.atexitRegistered && atexitRunsOn cause then
    cleanup_stream_folder rmtreeFails s
  else s

/-! ## Ordering predicates over event traces -/

/-- Boolean test that a list of naturals is non-decreasing. -/
def chainLeB : List Nat → Bool
  | [] => true
  | [_] => true
  | a :: b :: t => decide (a ≤ b) && chainLeB (b :: t)

/-- A trace respects the pipeline ordering when the stage numbers of its
events are non-decreasing. -/
abbrev PipelineOrdered (t : List Ev) : Prop := chainLeB (t.map stage) = true

/-- Every event satisfying p occurs strictly before every event
satisfying q in the trace. -/
def Before (p q : Ev → Bool) (t : List Ev) : Prop :=
  ∀ i j (hi : i < t.length) (hj : j < t.length),
    p (t.get ⟨i, hi⟩) = true → q (t.get ⟨j, hj⟩) = true → i < j

/-- A non-decreasing list is pointwise monotone over index order. -/
theorem chainLeB_mono {l : List Nat} (h : chainLeB l = true) :
    ∀ i j (hi : i < l.length) (hj : j < l.length), i ≤ j →
      l.get ⟨i, hi⟩ ≤ l.get ⟨j, hj⟩ := by
  induction l with
  | nil => intro i j hi _ _; exact absurd hi (Nat.not_lt_zero i)
  | cons a t ih =>
    intro i j hi hj hij
    cases t with
    | nil =>
      have hi0 : i = 0 := by simpa using Nat.lt_one_iff.mp (by simpa using hi)
      have hj0 : j = 0 := by simpa using Nat.lt_one_iff.mp (by simpa using hj)
      subst hi0; subst hj0; simp
    | cons b t' =>
      have h1 : a ≤ b ∧ chainLeB (b :: t') = true := by
        have := h
        simp [chainLeB] at this
        exact this
      cases i with
      | zero =>
        cases j with
        | zero => simp
        | succ j' =>
          have hb : b ≤ (b :: t').get ⟨j', Nat.lt_of_succ_lt_succ hj⟩ := by
            have := ih h1.2 0 j' (Nat.zero_lt_succ _) (Nat.lt_of_succ_lt_succ hj)
              (Nat.zero_le _)
            simpa using this
          simpa using Nat.le_trans h1.1 hb
      | succ i' =>
        cases j with
        | zero => exact absurd hij (by omega)
        | succ j' =>
          have := ih h1.2 i' j' (Nat.lt_of_succ_lt_succ hi)
            (Nat.lt_of_succ_lt_succ hj) (Nat.le_of_succ_le_succ hij)
          simpa using this

/-- In a pipeline-ordered trace, an event of strictly smaller stage sits
at a strictly smaller index. -/
theorem stage_mono {t : List Ev} (h : PipelineOrdered t) :
    ∀ i j (hi : i < t.length) (hj : j < t.length),
      stage (t.get ⟨i, hi⟩) < stage (t.get ⟨j, hj⟩) → i < j := by
  intro i j hi hj hlt
  by_contra hij
  have hji : j ≤ i := Nat.le_of_not_lt hij
  have hlen : (t.map stage).length = t.length := t.length_map stage
  have hm := chainLeB_mono (l := t.map stage) h j i (by omega) (by omega) hji
  have e1 : (t.map stage).get ⟨j, by omega⟩ = stage (t.get ⟨j, hj⟩) := by
    simp [List.get_eq_getElem, List.getElem_map]
  have e2 : (t.map stage).get ⟨i, by omega⟩ = stage (t.get ⟨i, hi⟩) := by
    simp [List.get_eq_getElem, List.getElem_map]
  rw [e1, e2] at hm
  omega

/-- Transfer stage separation of two event classes to index order. -/
theorem before_of_stage {t : List Ev} (p q : Ev → Bool)
    (h : PipelineOrdered t)
    (hpq : ∀ e e', p e = true → q e' = true → stage e < stage e') :
    Before p q t := by
  intro i j hi hj hp hq
  exact stage_mono h i j hi hj (hpq _ _ hp hq)

/-! ## Auxiliary lemmas -/

theorem stage_of_isResolve {e : Ev} (h : isResolve e = true) : stage e = 0 := by
  cases e <;> first | rfl | simp [isResolve] at h

theorem stage_of_isMaterialize {e : Ev} (h : isMaterialize e = true) :
    stage e = 2 := by
  cases e <;> first | rfl | simp [isMaterialize] at h

theorem stage_of_isTranscode {e : Ev} (h : isTranscode e = true) :
    stage e = 4 := by
  cases e <;> first | rfl | simp [isTranscode] at h

theorem stage_of_isWriteOutput {e : Ev} (h : isWriteOutput e = true) :
    stage e = 5 := by
  cases e <;> first | rfl | simp [isWriteOutput] at h

theorem stage_of_isWriteMaster {e : Ev} (h : isWriteMaster e = true) :
    stage e = 6 := by
  cases e <;> first | rfl | simp [isWriteMaster] at h

theorem stage_of_isBindPort {e : Ev} (h : isBindPort e = true) :
    stage e = 8 := by
  cases e <;> first | rfl | simp [isBindPort] at h

/-- The background worker never changes the HTTP response computed by the
synchronous part of the handler. -/
theorem runJobOpt_response (c : Int) (o : StartOutcome) :
    (runJobOpt c o).response = o.response := by
  cases h : o.job <;> simp [runJobOpt, h]

theorem nonEmptyOrDot_ne_nil (r : List Char) : nonEmptyOrDot r ≠ [] := by
  unfold nonEmptyOrDot
  split
  · simp
  · assumption

/-- normpath never returns the empty character list. -/
theorem pyNormpathL_ne_nil (l : List Char) : pyNormpathL l ≠ [] := by
  unfold pyNormpathL
  split
  · simp
  · exact nonEmptyOrDot_ne_nil _

/-- normpath never returns the empty string. -/
theorem pyNormpath_ne_empty (s : String) : pyNormpath s ≠ "" := by
  unfold pyNormpath
  intro h
  have : (pyNormpathL s.toList) = [] := by
    have := congrArg String.toList h
    simpa [List.asString] using this
  exact pyNormpathL_ne_nil s.toList this

/-- A path accepted by secure_path is never the empty string. -/
theorem secure_path_ok_ne_empty {cwd root rel m : String}
    (h : secure_path cwd root rel = .ok m) : m ≠ "" := by
  simp only [secure_path] at h
  split at h
  · cases h
    exact pyNormpath_ne_empty _
  · cases h

/-- The length of os.path.join is at least the length of its second
argument. -/
theorem pyJoin_length (a b : String) : b.length ≤ (pyJoin a b).length := by
  have hb : b.length = b.toList.length := rfl
  unfold pyJoin pyJoinL
  split
  · show b.length ≤ b.toList.length
    omega
  · split
    · show b.length ≤ (a.toList ++ b.toList).length
      rw [List.length_append]
      omega
    · show b.length ≤ (a.toList ++ '/' :: b.toList).length
      rw [List.length_append, List.length_cons]
      omega

/-- os.path.join never equals a string shorter than its second argument. -/
theorem pyJoin_ne_short (a b c : String) (h : c.length < b.length) :
    pyJoin a b ≠ c := by
  intro he
  have := pyJoin_length a b
  rw [he] at this
  omega

/-! ## Concrete fixtures for evaluating the model -/

/-- A fresh process state: nothing created, nothing bound. -/
def stateFresh : St := ⟨"/", false, false, false, false, none, false⟩

/-- A state in the middle of a running job: output artifacts present, the
server bound, the stream folder recorded, atexit registered. -/
def stateRunning : St :=
  ⟨"/a/Movies/m/stream", true, true, true, true, some "/a/Movies/m/stream", true⟩

/-- The delay 1.5 (the app's default). -/
def delayDefault : Rat := ⟨3, 2, by decide, by decide⟩

/-- The delay 2.5. -/
def delayPos : Rat := ⟨5, 2, by decide, by decide⟩

/-- The delay -1.0. -/
def delayNeg : Rat := ⟨-1, 1, by decide, by decide⟩

/-- A session with a video selected and no subtitle. -/
def sessVideo : Session := ⟨some "m/f.mp4", none, none⟩

/-- A session with a video and a subtitle selected. -/
def sessVideoSub : Session := ⟨some "m/f.mp4", some "m/s.srt", none⟩

/-! ## Claim theorems -/

/-- Claim C1.  The claim states that secure_path fails with a
path-violation error for every relative path whose canonicalized
resolution is not a descendant of the root.  The code instead compares
raw string prefixes, so a sibling directory whose name extends the root's
name passes the check: with root /a/Movies, the relative path
../Movies2/secret.mp4 canonicalizes to /a/Movies2/secret.mp4, which is
not a descendant of the root, yet secure_path returns it instead of
failing.  This also contradicts the function's own docstring ("Return an
absolute path inside MOVIES_DIR"). -/
theorem claim_C1_prefix_escape :
    (secure_path "/" "/a/Movies" "../Movies2/secret.mp4").toOption
        = some "/a/Movies2/secret.mp4"
    ∧ isDescendant "/a/Movies" "/a/Movies2/secret.mp4" = false := by
  decide

/-- Claim C2, counterexample.  The claim states that an explicit stop
request shuts down the HTTP server so that subsequent connections to the
serving port fail.  stop_stream only deletes the stream folder; it never
touches the server, which stays bound: starting from a running state with
the server bound, the state after stop_stream still has the server
bound. -/
theorem claim_C2_counterexample :
    (stop_stream "/" "/a/Movies" sessVideo false stateRunning).2.2.serverBound
        = true
    ∧ (stop_stream "/" "/a/Movies" sessVideo false stateRunning).2.2.outputDirExists
        = false := by
  decide

/-- Claim C2, amended.  An explicit stop request recursively deletes the
job's output directory (when the deletion itself succeeds) and swallows
any deletion error — the handler always answers with a redirect — but it
does not shut down the HTTP server: the server socket state is exactly
what it was before the stop request. -/
theorem claim_C2_stop_amended (cwd root : String) (sess : Session)
    (rmFail : Bool) (s : St)
    (hv : pyTruthy sess.video = true)
    (hok : (secure_path cwd root (sess.video.getD "")).toOption.isSome = true) :
    (stop_stream cwd root sess rmFail s).1 = .redirect
    ∧ (stop_stream cwd root sess rmFail s).2.2.serverBound = s.serverBound
    ∧ (rmFail = false →
        (stop_stream cwd root sess rmFail s).2.2.outputDirExists = false) := by
  obtain ⟨m, hm⟩ : ∃ m, secure_path cwd root (sess.video.getD "") = .ok m := by
    cases hsp : secure_path cwd root (sess.video.getD "") with
    | ok a => exact ⟨a, rfl⟩
    | error e => rw [hsp] at hok; simp [Except.toOption] at hok
  refine ⟨rfl, ?_, ?_⟩
  · simp only [stop_stream, hv, if_true, hm]
    cases rmFail <;> simp
  · intro hrm
    subst hrm
    simp [stop_stream, hv, hm]

/-- Witness for claim C2's amended theorem at a concrete running state. -/
theorem claim_C2_stop_amended_witness :
    (stop_stream "/" "/a/Movies" sessVideo false stateRunning).1 = .redirect
    ∧ (stop_stream "/" "/a/Movies" sessVideo false stateRunning).2.2.serverBound
        = stateRunning.serverBound
    ∧ (stop_stream "/" "/a/Movies" sessVideo false stateRunning).2.2.outputDirExists
        = false := by
  have h := claim_C2_stop_amended "/" "/a/Movies" sessVideo false stateRunning
    (by decide) (by decide)
  exact ⟨h.1, h.2.1, h.2.2 rfl⟩

/-- Claim C6.  A start request with no video selected (session video
missing or empty) answers 400 "No video selected" immediately: the
process state is untouched (no output directory, no port), no trace
events happen, and no background job is spawned. -/
theorem claim_C6_no_video (cwd root : String) (sess : Session) (fd : Rat)
    (mf sfb : Bool) (rm rs : Except String Unit) (code : Int) (s : St)
    (hv : pyTruthy sess.video = false) :
    (start_stream_full cwd root sess fd mf sfb rm rs code s).response
        = .err 400 "No video selected"
    ∧ (start_stream_full cwd root sess fd mf sfb rm rs code s).state = s
    ∧ (start_stream_full cwd root sess fd mf sfb rm rs code s).trace = []
    ∧ (start_stream_full cwd root sess fd mf sfb rm rs code s).job = none := by
  simp [start_stream_full, start_stream_sync, runJobOpt, hv]

/-- Witness for claim C6 at a concrete empty session. -/
theorem claim_C6_no_video_witness :
    (start_stream_full "/" "/a/Movies" ⟨none, none, none⟩ delayDefault true true
        (.ok ()) (.ok ()) 0 stateFresh).response = .err 400 "No video selected"
    ∧ (start_stream_full "/" "/a/Movies" ⟨none, none, none⟩ delayDefault true true
        (.ok ()) (.ok ()) 0 stateFresh).state = stateFresh
    ∧ (start_stream_full "/" "/a/Movies" ⟨none, none, none⟩ delayDefault true true
        (.ok ()) (.ok ()) 0 stateFresh).trace = []
    ∧ (start_stream_full "/" "/a/Movies" ⟨none, none, none⟩ delayDefault true true
        (.ok ()) (.ok ()) 0 stateFresh).job = none :=
  claim_C6_no_video "/" "/a/Movies" ⟨none, none, none⟩ delayDefault true true
    (.ok ()) (.ok ()) 0 stateFresh (by decide)

/-- Claim C8.  ensure_local always returns normally: whatever the outcome
of opening and reading the file, the result is an ok value (no exception
reaches the caller), and an I/O error is converted into exactly one
printed warning line naming the path and the error. -/
theorem claim_C8_ensure_local_total (p : String) (r : Except String Unit) :
    (ensure_local p r).toOption.isSome = true
    ∧ (∀ e, r = .error e →
        ensure_local p r
          = .ok ["Warning: could not access " ++ p ++ ": " ++ e]) := by
  cases r <;> simp [ensure_local, Except.toOption]

/-- Witness for claim C8: a concrete failing read yields an ok result
carrying the warning line. -/
theorem claim_C8_ensure_local_witness :
    (ensure_local "/a/Movies/m/f.mp4" (.ok ())).toOption.isSome = true
    ∧ ensure_local "/a/Movies/m/f.mp4" (.error "disk error")
        = .ok ["Warning: could not access /a/Movies/m/f.mp4: disk error"] := by
  refine ⟨(claim_C8_ensure_local_total "/a/Movies/m/f.mp4" (.ok ())).1, ?_⟩
  have h := (claim_C8_ensure_local_total "/a/Movies/m/f.mp4"
    (.error "disk error")).2 "disk error" rfl
  simpa using h

/-- Claim C9, counterexample.  The claim states the stop teardown runs on
process termination regardless of cause (normal exit, signal, crash), so
the stream folder does not survive.  The hook is registered with atexit,
and CPython does not run atexit handlers when the process is killed by an
unhandled signal: terminating by signal from a running state leaves the
output directory in place. -/
theorem claim_C9_counterexample :
    (processTerminate .signalKill false
        (moduleInit stateRunning)).outputDirExists = true := by
  decide

/-- Claim C9, amended.  The stop teardown of the last known output
directory is registered via atexit at module import and therefore runs on
normal interpreter exit, on sys.exit and after an unhandled exception; on
those causes the recorded stream folder is deleted.  It does not run on an
unhandled fatal signal or a hard crash, on which the process state is
untouched. -/
theorem claim_C9_atexit_amended (s : St) (cause : TermCause) (d : String)
    (hg : s.streamFolderGlobal = some d)
    (hc : atexitRunsOn cause = true) :
    (processTerminate cause false (moduleInit s)).outputDirExists = false
    ∧ (∀ c2, atexitRunsOn c2 = false →
        processTerminate c2 false (moduleInit s) = moduleInit s) := by
  constructor
  · have hg2 : (moduleInit s).streamFolderGlobal = some d := hg
    simp only [processTerminate, moduleInit, hc]
    simp only [cleanup_stream_folder, hg]
    cases ho : s.outputDirExists <;> simp [ho]
  · intro c2 hc2
    simp [processTerminate, hc2]

/-- Witness for claim C9's amended theorem: normal exit deletes the
folder; a kill signal leaves the state untouched. -/
theorem claim_C9_atexit_amended_witness :
    (processTerminate .normalExit false
        (moduleInit stateRunning)).outputDirExists = false
    ∧ processTerminate .signalKill false (moduleInit stateRunning)
        = moduleInit stateRunning := by
  have h := claim_C9_atexit_amended stateRunning .normalExit
    "/a/Movies/m/stream" (by decide) (by decide)
  exact ⟨h.1, h.2 .signalKill (by decide)⟩

/-- Claim C10.  serve_output switches the process-wide working directory
to the job's output directory before binding the port, and never restores
it: after serving starts the state's working directory is the output
directory, the chdir event precedes the port bind in the trace, and even
at the end of a whole successful run_ffmpeg run the working directory is
still the output directory (a process-global effect, not local to the
serving job). -/
theorem claim_C10_chdir_global (dir : String) (port : Nat) (s : St) :
    (serve_output dir port s).1.cwd = dir
    ∧ (serve_output dir port s).1.serverBound = true
    ∧ (serve_output dir port s).2 = [.chdir dir, .bindPort port]
    ∧ ∀ (movie : String) (sub : Option String) (sf : String) (delay : Rat)
        (s2 : St), ((run_ffmpeg movie sub sf port delay 0 s2).2.1).cwd = sf := by
  refine ⟨rfl, rfl, rfl, ?_⟩
  intro movie sub sf delay s2
  simp [run_ffmpeg, serve_output]

/-- Claim C3.  For a video+subtitle invocation, the built transcoder
command carries the -itsoffset flag exactly when the delay is nonzero;
when present the flag holds str(delay) (including negative values) and
sits between the video input and the subtitle input, so it applies only
to the subtitle input.  The two equations pin the full argument list in
both cases; the final conjunct is the if-and-only-if on the flag's
presence (stated for paths that do not themselves spell the flag). -/
theorem claim_C3_itsoffset (movie sub sf : String) (delay : Rat)
    (hsub : sub ≠ "") (hm : movie ≠ "-itsoffset") (hs2 : sub ≠ "-itsoffset") :
    (delay ≠ 0 →
      build_ffmpeg_command movie (some sub) sf delay =
        ["ffmpeg", "-i", movie, "-itsoffset", pyFloatStr delay, "-i", sub,
          "-map", "0:v", "-map", "0:a", "-map", "1:0", "-c:v", "copy",
          "-c:a", "copy", "-c:s", "webvtt", "-start_number", "0",
          "-hls_time", "10", "-hls_list_size", "0", "-hls_segment_filename",
          pyJoin sf "segment_%03d.ts", pyJoin sf "output.m3u8"])
    ∧ (delay = 0 →
      build_ffmpeg_command movie (some sub) sf delay =
        ["ffmpeg", "-i", movie, "-i", sub, "-map", "0:v", "-map", "0:a",
          "-map", "1:0", "-c:v", "copy", "-c:a", "copy", "-c:s", "webvtt",
          "-start_number", "0", "-hls_time", "10", "-hls_list_size", "0",
          "-hls_segment_filename", pyJoin sf "segment_%03d.ts",
          pyJoin sf "output.m3u8"])
    ∧ ("-itsoffset" ∈ build_ffmpeg_command movie (some sub) sf delay ↔
        delay ≠ 0) := by
  have ht : pyTruthy (some sub) = true := by simp [pyTruthy, hsub]
  have h1 : delay ≠ 0 →
      build_ffmpeg_command movie (some sub) sf delay =
        ["ffmpeg", "-i", movie, "-itsoffset", pyFloatStr delay, "-i", sub,
          "-map", "0:v", "-map", "0:a", "-map", "1:0", "-c:v", "copy",
          "-c:a", "copy", "-c:s", "webvtt", "-start_number", "0",
          "-hls_time", "10", "-hls_list_size", "0", "-hls_segment_filename",
          pyJoin sf "segment_%03d.ts", pyJoin sf "output.m3u8"] := by
    intro hd
    simp [build_ffmpeg_command, ht, hd]
  have h0 : delay = 0 →
      build_ffmpeg_command movie (some sub) sf delay =
        ["ffmpeg", "-i", movie, "-i", sub, "-map", "0:v", "-map", "0:a",
          "-map", "1:0", "-c:v", "copy", "-c:a", "copy", "-c:s", "webvtt",
          "-start_number", "0", "-hls_time", "10", "-hls_list_size", "0",
          "-hls_segment_filename", pyJoin sf "segment_%03d.ts",
          pyJoin sf "output.m3u8"] := by
    intro hd
    simp [build_ffmpeg_command, ht, hd]
  refine ⟨h1, h0, ?_, ?_⟩
  · intro hmem hd0
    rw [h0 hd0] at hmem
    simp at hmem
    rcases hmem with h | h | h | h
    all_goals first
      | exact hm h.symm
      | exact hm h
      | exact hs2 h.symm
      | exact hs2 h
      | exact pyJoin_ne_short sf "segment_%03d.ts" "-itsoffset" (by decide) h.symm
      | exact pyJoin_ne_short sf "output.m3u8" "-itsoffset" (by decide) h.symm
  · intro hd
    rw [h1 hd]
    simp

/-- Witness for claim C3 at the spec's three example delays: 2.5 emits the
flag carrying "2.5" right before the subtitle input, 0 omits the flag,
and -1.0 emits the flag carrying "-1.0". -/
theorem claim_C3_itsoffset_witness :
    build_ffmpeg_command "m.mp4" (some "s.srt") "/a/Movies/m/stream" delayPos =
      ["ffmpeg", "-i", "m.mp4", "-itsoffset", "2.5", "-i", "s.srt",
        "-map", "0:v", "-map", "0:a", "-map", "1:0", "-c:v", "copy",
        "-c:a", "copy", "-c:s", "webvtt", "-start_number", "0",
        "-hls_time", "10", "-hls_list_size", "0", "-hls_segment_filename",
        "/a/Movies/m/stream/segment_%03d.ts", "/a/Movies/m/stream/output.m3u8"]
    ∧ build_ffmpeg_command "m.mp4" (some "s.srt") "/a/Movies/m/stream" 0 =
      ["ffmpeg", "-i", "m.mp4", "-i", "s.srt", "-map", "0:v", "-map", "0:a",
        "-map", "1:0", "-c:v", "copy", "-c:a", "copy", "-c:s", "webvtt",
        "-start_number", "0", "-hls_time", "10", "-hls_list_size", "0",
        "-hls_segment_filename", "/a/Movies/m/stream/segment_%03d.ts",
        "/a/Movies/m/stream/output.m3u8"]
    ∧ build_ffmpeg_command "m.mp4" (some "s.srt") "/a/Movies/m/stream" delayNeg =
      ["ffmpeg", "-i", "m.mp4", "-itsoffset", "-1.0", "-i", "s.srt",
        "-map", "0:v", "-map", "0:a", "-map", "1:0", "-c:v", "copy",
        "-c:a", "copy", "-c:s", "webvtt", "-start_number", "0",
        "-hls_time", "10", "-hls_list_size", "0", "-hls_segment_filename",
        "/a/Movies/m/stream/segment_%03d.ts", "/a/Movies/m/stream/output.m3u8"] := by
  have hA := claim_C3_itsoffset "m.mp4" "s.srt" "/a/Movies/m/stream" delayPos
    (by decide) (by decide) (by decide)
  have hB := claim_C3_itsoffset "m.mp4" "s.srt" "/a/Movies/m/stream" 0
    (by decide) (by decide) (by decide)
  have hC := claim_C3_itsoffset "m.mp4" "s.srt" "/a/Movies/m/stream" delayNeg
    (by decide) (by decide) (by decide)
  refine ⟨?_, ?_, ?_⟩
  · rw [hA.1 (by decide)]
    decide
  · rw [hB.2.1 rfl]
    decide
  · rw [hC.1 (by decide)]
    decide

set_option maxRecDepth 8000 in
/-- Claim C4.  The generated master playlist: with no subtitle it has
exactly one variant-stream line, that line carries no SUBTITLES
attribute, and there is no media-rendition line; with a subtitle it has a
media-rendition line whose group is "subs" and a variant-stream line
carrying SUBTITLES="subs" immediately followed by the media playlist
name. -/
theorem claim_C4_master_playlist (subtitle : Option String) :
    (pyTruthy subtitle = false →
      (fileLines (masterPlaylistContent subtitle)).countP
          (fun l => pyStartsWith "#EXT-X-STREAM-INF" l) = 1
      ∧ (∀ l ∈ fileLines (masterPlaylistContent subtitle),
          pyStartsWith "#EXT-X-STREAM-INF" l = true →
            containsStr "SUBTITLES" l = false)
      ∧ (fileLines (masterPlaylistContent subtitle)).countP
          (fun l => pyStartsWith "#EXT-X-MEDIA" l) = 0)
    ∧ (pyTruthy subtitle = true →
      (∃ l, l ∈ fileLines (masterPlaylistContent subtitle)
        ∧ pyStartsWith "#EXT-X-MEDIA" l = true
        ∧ containsStr "GROUP-ID=\"subs\"" l = true)
      ∧ ∃ i li, (fileLines (masterPlaylistContent subtitle)).get? i = some li
          ∧ pyStartsWith "#EXT-X-STREAM-INF" li = true
          ∧ containsStr "SUBTITLES=\"subs\"" li = true
          ∧ (fileLines (masterPlaylistContent subtitle)).get? (i + 1)
              = some "output.m3u8") := by
  constructor
  · intro h
    simp only [masterPlaylistContent, h, Bool.false_eq_true, if_false]
    decide
  · intro h
    simp only [masterPlaylistContent, h, if_true]
    refine ⟨⟨"#EXT-X-MEDIA:TYPE=SUBTITLES,GROUP-ID=\"subs\",NAME=\"English\",DEFAULT=NO,AUTOSELECT=YES,LANGUAGE=\"en\",URI=\"output_vtt.m3u8\"",
      by decide, by decide, by decide⟩,
      4, "#EXT-X-STREAM-INF:BANDWIDTH=800000,RESOLUTION=1920x1080,SUBTITLES=\"subs\"",
      by decide, by decide, by decide, by decide⟩

/-- Witness for claim C4 at the two concrete selections. -/
theorem claim_C4_master_playlist_witness :
    ((fileLines (masterPlaylistContent none)).countP
        (fun l => pyStartsWith "#EXT-X-STREAM-INF" l) = 1
      ∧ (∀ l ∈ fileLines (masterPlaylistContent none),
          pyStartsWith "#EXT-X-STREAM-INF" l = true →
            containsStr "SUBTITLES" l = false)
      ∧ (fileLines (masterPlaylistContent none)).countP
          (fun l => pyStartsWith "#EXT-X-MEDIA" l) = 0)
    ∧ ((∃ l, l ∈ fileLines (masterPlaylistContent (some "m/s.srt"))
        ∧ pyStartsWith "#EXT-X-MEDIA" l = true
        ∧ containsStr "GROUP-ID=\"subs\"" l = true)
      ∧ ∃ i li,
          (fileLines (masterPlaylistContent (some "m/s.srt"))).get? i = some li
          ∧ pyStartsWith "#EXT-X-STREAM-INF" li = true
          ∧ containsStr "SUBTITLES=\"subs\"" li = true
          ∧ (fileLines (masterPlaylistContent (some "m/s.srt"))).get? (i + 1)
              = some "output.m3u8") :=
  ⟨(claim_C4_master_playlist none).1 (by decide),
    (claim_C4_master_playlist (some "m/s.srt")).2 (by decide)⟩

/-- Claim C5.  When the ffmpeg subprocess exits nonzero, run_ffmpeg fails
with exactly that exit code (sys.exit(returncode) inside the worker),
does not write the master playlist, does not start the stream server (no
bind event, server state untouched), and the failure is invisible to the
HTTP caller: the start handler's response does not depend on the exit
code, because the worker runs in a discarded daemon thread. -/
theorem claim_C5_transcode_error (movie : String) (subtitle : Option String)
    (sf : String) (port : Nat) (delay : Rat) (code : Int) (s : St)
    (h : code ≠ 0) :
    (run_ffmpeg movie subtitle sf port delay code s).1 = .error code
    ∧ (run_ffmpeg movie subtitle sf port delay code s).2.1.masterM3u8
        = s.masterM3u8
    ∧ (run_ffmpeg movie subtitle sf port delay code s).2.1.serverBound
        = s.serverBound
    ∧ Ev.writeMaster ∉ (run_ffmpeg movie subtitle sf port delay code s).2.2
    ∧ (∀ p, Ev.bindPort p ∉ (run_ffmpeg movie subtitle sf port delay code s).2.2)
    ∧ ∀ (cwd root : String) (sess : Session) (fd : Rat) (s2 : St),
        (start_stream_full cwd root sess fd true true (.ok ()) (.ok ())
            code s2).response
          = (start_stream_full cwd root sess fd true true (.ok ()) (.ok ())
              0 s2).response := by
  refine ⟨?_, ?_, ?_, ?_, ?_, ?_⟩
  · simp [run_ffmpeg, h]
  · simp [run_ffmpeg, h]
  · simp [run_ffmpeg, h]
  · simp [run_ffmpeg, h]
  · intro p
    simp [run_ffmpeg, h]
  · intro cwd root sess fd s2
    simp [start_stream_full, runJobOpt_response]

/-- Witness for claim C5 at a concrete exit code 1. -/
theorem claim_C5_transcode_error_witness :
    (run_ffmpeg "/a/Movies/m/f.mp4" none "/a/Movies/m/stream" 9000
        delayDefault 1 stateFresh).1 = .error 1
    ∧ (run_ffmpeg "/a/Movies/m/f.mp4" none "/a/Movies/m/stream" 9000
        delayDefault 1 stateFresh).2.1.masterM3u8 = stateFresh.masterM3u8
    ∧ (run_ffmpeg "/a/Movies/m/f.mp4" none "/a/Movies/m/stream" 9000
        delayDefault 1 stateFresh).2.1.serverBound = stateFresh.serverBound
    ∧ (start_stream_full "/" "/a/Movies" sessVideo delayDefault true true
        (.ok ()) (.ok ()) 1 stateFresh).response
      = (start_stream_full "/" "/a/Movies" sessVideo delayDefault true true
          (.ok ()) (.ok ()) 0 stateFresh).response := by
  have h := claim_C5_transcode_error "/a/Movies/m/f.mp4" none
    "/a/Movies/m/stream" 9000 delayDefault 1 stateFresh (by decide)
  exact ⟨h.1, h.2.1, h.2.2.1, h.2.2.2.2.2 "/" "/a/Movies" sessVideo
    delayDefault stateFresh⟩

/-- The ordering properties claim C7 asserts of one job's trace. -/
def PipelineSpec (t : List Ev) : Prop :=
  PipelineOrdered t
  ∧ t.any isResolve = true
  ∧ t.any isMaterialize = true
  ∧ t.any isTranscode = true
  ∧ t.any isWriteOutput = true
  ∧ t.any isWriteMaster = true
  ∧ t.any isBindPort = true
  ∧ Before isResolve isMaterialize t
  ∧ Before isMaterialize isTranscode t
  ∧ Before isTranscode isBindPort t
  ∧ Before isWriteOutput isBindPort t
  ∧ Before isWriteMaster isBindPort t

/-- Assemble PipelineSpec from the ordering invariant plus presence of
each stage. -/
theorem pipelineSpec_intro (t : List Ev)
    (hord : PipelineOrdered t)
    (h1 : t.any isResolve = true) (h2 : t.any isMaterialize = true)
    (h3 : t.any isTranscode = true) (h4 : t.any isWriteOutput = true)
    (h5 : t.any isWriteMaster = true) (h6 : t.any isBindPort = true) :
    PipelineSpec t := by
  refine ⟨hord, h1, h2, h3, h4, h5, h6, ?_, ?_, ?_, ?_, ?_⟩
  · refine before_of_stage _ _ hord ?_
    intro e e' he he'
    rw [stage_of_isResolve he, stage_of_isMaterialize he']
    omega
  · refine before_of_stage _ _ hord ?_
    intro e e' he he'
    rw [stage_of_isMaterialize he, stage_of_isTranscode he']
    omega
  · refine before_of_stage _ _ hord ?_
    intro e e' he he'
    rw [stage_of_isTranscode he, stage_of_isBindPort he']
    omega
  · refine before_of_stage _ _ hord ?_
    intro e e' he he'
    rw [stage_of_isWriteOutput he, stage_of_isBindPort he']
    omega
  · refine before_of_stage _ _ hord ?_
    intro e e' he he'
    rw [stage_of_isWriteMaster he, stage_of_isBindPort he']
    omega

/-- Claim C7.  On a successful start (video selected and resolvable,
files present, reads succeed, ffmpeg exits 0), the job's trace respects
the strict stage order Path Guard resolution, validation, Materializer
touches, output-folder creation, transcoder run, playlist writes, chdir,
port bind: in particular every materialize event precedes the transcoder
run, and the port bind comes only after output.m3u8 and master.m3u8 were
produced. -/
theorem claim_C7_pipeline_order (cwd root : String) (sess : Session)
    (fd : Rat) (s : St)
    (hv : pyTruthy sess.video = true)
    (hok : (secure_path cwd root (sess.video.getD "")).toOption.isSome = true)
    (hsubok : pyTruthy sess.subtitle = true →
      (secure_path cwd root (sess.subtitle.getD "")).toOption.isSome = true) :
    PipelineSpec
      (start_stream_full cwd root sess fd true true (.ok ()) (.ok ())
        0 s).trace := by
  obtain ⟨m, hm⟩ : ∃ m, secure_path cwd root (sess.video.getD "") = .ok m := by
    cases hsp : secure_path cwd root (sess.video.getD "") with
    | ok a => exact ⟨a, rfl⟩
    | error e => rw [hsp] at hok; simp [Except.toOption] at hok
  by_cases hsub : pyTruthy sess.subtitle = true
  · obtain ⟨ms, hms⟩ :
        ∃ ms, secure_path cwd root (sess.subtitle.getD "") = .ok ms := by
      cases hsp : secure_path cwd root (sess.subtitle.getD "") with
      | ok a => exact ⟨a, rfl⟩
      | error e =>
        have := hsubok hsub
        rw [hsp] at this
        simp [Except.toOption] at this
    have hmsne : pyTruthy (some ms) = true := by
      simp [pyTruthy, secure_path_ok_ne_empty hms]
    have ht : (start_stream_full cwd root sess fd true true (.ok ()) (.ok ())
        0 s).trace =
        [.resolvePath (sess.video.getD ""),
          .resolvePath (sess.subtitle.getD ""), .validate, .materialize m,
          .materialize ms, .mkdirOutput,
          .transcodeRun (build_ffmpeg_command m (some ms)
            (pyJoin (pyDirname m) "stream") fd),
          .writeOutputPlaylist, .writeMaster,
          .chdir (pyJoin (pyDirname m) "stream"), .bindPort 9000] := by
      simp [start_stream_full, start_stream_sync, runJobOpt, run_ffmpeg,
        serve_output, validate_paths, hv, hm, hms, hsub, hmsne]
    rw [ht]
    exact pipelineSpec_intro _ rfl rfl rfl rfl rfl rfl rfl
  · have hsub' : pyTruthy sess.subtitle = false := by
      cases hps : pyTruthy sess.subtitle
      · rfl
      · exact absurd hps hsub
    have hpn : pyTruthy none = false := rfl
    have ht : (start_stream_full cwd root sess fd true true (.ok ()) (.ok ())
        0 s).trace =
        [.resolvePath (sess.video.getD ""), .validate, .materialize m,
          .mkdirOutput,
          .transcodeRun (build_ffmpeg_command m none
            (pyJoin (pyDirname m) "stream") fd),
          .writeOutputPlaylist, .writeMaster,
          .chdir (pyJoin (pyDirname m) "stream"), .bindPort 9000] := by
      simp [start_stream_full, start_stream_sync, runJobOpt, run_ffmpeg,
        serve_output, validate_paths, hv, hm, hsub', hpn]
    rw [ht]
    exact pipelineSpec_intro _ rfl rfl rfl rfl rfl rfl rfl

/-- Witness for claim C7 at a concrete video-plus-subtitle session. -/
theorem claim_C7_pipeline_order_witness :
    PipelineSpec
      (start_stream_full "/" "/a/Movies" sessVideoSub delayDefault true true
        (.ok ()) (.ok ()) 0 stateFresh).trace :=
  claim_C7_pipeline_order "/" "/a/Movies" sessVideoSub delayDefault stateFresh
    (by decide) (by decide) (by decide)

end LMS
